import Mathlib

/-
Verification development for `.github/scripts/monitor_news.py`: a shallow
embedding of the news-monitoring pipeline (structured extraction,
deduplication with in-place source merging, and the orchestrating `main`)
together with theorems settling the specification's claims.

External collaborators (feed fetching, HTML extraction, the OpenAI chat
completion calls, the GitHub API, `json.loads`) are modelled as inputs:
an inference-service response is an `Except String String` (the `.error`
constructor standing for a raised network/service exception), and the
outcome of `json.loads` on a model response is supplied alongside the raw
response text.
-/

set_option autoImplicit false

namespace MonitorNews

/-- One `{url, name}` entry of an incident's `sources` list. -/
structure Source where
  url : String
  name : String
  deriving DecidableEq, Repr

/-- A well-formed incident record as persisted in `data/incidents.json`:
the fields the script reads (`date`, `location`, `description`, `type`,
`sources`) plus `status`. -/
structure Incident where
  date : String
  location : String
  description : String
  type : String
  status : String
  sources : List Source
  deriving DecidableEq, Repr

/-- The persisted collection: `{"incidents": [...], "lastUpdated": "..."}`,
loaded by `load_current_incidents`. -/
structure Collection where
  incidents : List Incident
  lastUpdated : String
  deriving DecidableEq, Repr

/-- Python's `str.strip()` with no argument: drop leading and trailing
whitespace.  (Implemented over the character list so that it reduces in
the kernel; only ASCII responses are ever compared.) -/
def pyStrip (s : String) : String :=
  String.mk ((s.data.dropWhile Char.isWhitespace).reverse.dropWhile Char.isWhitespace).reverse

/-- Python's `str.lower()` (ASCII range; the script only compares the
result against the ASCII tokens `"true"` and `"null"`). -/
def pyLower (s : String) : String :=
  String.mk (s.data.map Char.toLower)

/-- Python's `str.startswith(pre)`, over character lists so that it
reduces in the kernel. -/
def pyStartswith (s pre : String) : Bool :=
  pre.data.isPrefixOf s.data

/-- The URL-overlap test of `is_duplicate`'s first loop:
`existing_urls & new_urls` is non-empty iff some source URL is shared. -/
def sharesSourceUrl (existing new_incident : Incident) : Bool :=
  existing.sources.any fun s => new_incident.sources.any fun t => t.url == s.url

/-- The in-place merge `is_duplicate` performs on one same-date incident
when the model answers "true": `existing['sources'].extend([s for s in
new_incident['sources'] if s['url'] not in existing_urls])`, where
`existing_urls` is the URL set captured before the extend. -/
def mergeSources (existing new_incident : Incident) : Incident :=
  let existing_urls := existing.sources.map (·.url)
  { existing with
    sources := existing.sources ++
      new_incident.sources.filter fun s => !(existing_urls.contains s.url) }

/-- `is_duplicate(new_incident, existing_incidents)`.  The single chat
completion the function may issue is passed in as `oracle` (`.error`
models a raised exception, which the function does not catch).  The
result carries the verdict, the post-call state of `existing_incidents`
(the Python code mutates the same-date records in place on a "true"
verdict), and the number of comparison calls issued (0 or 1). -/
def is_duplicate (new_incident : Incident) (existing_incidents : List Incident)
    (oracle : Except String String) :
    Except String (Bool × List Incident × Nat) :=
  if existing_incidents.any (fun existing => sharesSourceUrl existing new_incident) then
    .ok (true, existing_incidents, 0)
  else
    let same_date_incidents :=
      existing_incidents.filter fun inc => inc.date == new_incident.date
    if same_date_incidents.isEmpty then
      .ok (false, existing_incidents, 0)
    else
      match oracle with
      | .error e => .error e
      | .ok r =>
        if pyLower (pyStrip r) == "true" then
          .ok (true,
            existing_incidents.map
              (fun inc => if inc.date == new_incident.date
                          then mergeSources inc new_incident else inc),
            1)
        else
          .ok (false, existing_incidents, 1)

/-- JSON values, as produced by `json.loads` on a model response.  Numbers
are modelled as integers; no claim depends on numeric values. -/
inductive Json where
  | null
  | bool (b : Bool)
  | num (n : Int)
  | str (s : String)
  | arr (elems : List Json)
  | obj (fields : List (String × Json))
  deriving Repr

/-- First-match field lookup in a decoded JSON object's key/value list
(`json.loads` produces dictionaries, so keys are unique). -/
def getField : List (String × Json) → String → Option Json
  | [], _ => none
  | (k, v) :: rest, key => if k == key then some v else getField rest key

/-- `incident['sources']` on a decoded JSON value: a lookup that succeeds
only on an object holding the key.  On any other value the Python
subscript raises (`TypeError`/`KeyError`), modelled by `none`. -/
def Json.lookup : Json → String → Option Json
  | .obj fields, key => getField fields key
  | _, _ => none

/-- Replacing the value stored under `key` in a decoded JSON object
(the effect of mutating `incident['sources']` in place). -/
def setFieldList : List (String × Json) → String → Json → List (String × Json)
  | [], _, _ => []
  | (k, v) :: rest, key, val =>
    if k == key then (k, val) :: setFieldList rest key val
    else (k, v) :: setFieldList rest key val

/-- `Json.setField j key val` on an object rewrites its `key` binding. -/
def Json.setField : Json → String → Json → Json
  | .obj fields, key, val => .obj (setFieldList fields key val)
  | j, _, _ => j

/-- The provenance dictionary `{'url': url, 'name': source_name}` that
`parse_with_llm` appends to the incident's `sources`. -/
def provenanceSource (url source_name : String) : Json :=
  Json.obj [("url", Json.str url), ("name", Json.str source_name)]

/-- `parse_with_llm`'s handling of the model response.  `raw` is
`response.choices[0].message.content`; `decoded` is the outcome of the
library call `json.loads(raw)` (`.error` when the raw text is not valid
JSON), supplied as an input because JSON decoding is an external library
function.  Every exception inside the `try` block — `json.loads` failing,
`incident['sources']` raising on a non-object or a missing key, and
`.append` raising on a non-list — is caught by the bare `except`, which
logs and returns `None`; so is the `"null"` sentinel, checked first on the
stripped, lowercased raw text. -/
def parse_with_llm (decoded : Except String Json) (raw url source_name : String) :
    Option Json :=
  if pyLower (pyStrip raw) == "null" then
    none
  else
    match decoded with
    | .error _ => none
    | .ok incident =>
      match incident.lookup "sources" with
      | some (Json.arr xs) =>
        some (incident.setField "sources"
          (Json.arr (xs ++ [provenanceSource url source_name])))
      | _ => none

/-- Whether a decoded model response carries a `sources` key holding a
list, i.e. whether `incident['sources'].append(...)` succeeds on it. -/
def sourcesAppendable (j : Json) : Bool :=
  match j.lookup "sources" with
  | some (Json.arr _) => true
  | _ => false

/-- The full class of model responses `parse_with_llm` rejects: the
`"null"` sentinel, text that is not valid JSON, and JSON without an
appendable `sources` list. -/
def extractionRejected (decoded : Except String Json) (raw : String) : Bool :=
  pyLower (pyStrip raw) == "null" ||
    (match decoded with
     | .error _ => true
     | .ok j => !(sourcesAppendable j))

/-- A Python value handed to `create_pull_request`.  The function is
duck-typed: its body only applies `len` to its argument.  `main` passes
it `current_data` — the whole collection dictionary — rather than the
list of new incidents. -/
inductive PyVal where
  | listIncidents (l : List Incident)
  | dictCollection (c : Collection)
  deriving DecidableEq, Repr

/-- Python `len` of the value: length of a list, or the number of keys of
the collection dictionary, which always has exactly the two keys
`incidents` and `lastUpdated`. -/
def PyVal.pyLen : PyVal → Nat
  | .listIncidents l => l.length
  | .dictCollection _ => 2

/-- Python truthiness of `os.environ.get(...)`: `None` (unset) and the
empty string are falsy. -/
def truthy : Option String → Bool
  | none => false
  | some s => s != ""

/-- The payload `create_pull_request` sends to the repository host when
every API call succeeds: the commit message and full file content of the
`PUT /contents/data/incidents.json` call, and the title and body of the
pull-request creation call. -/
structure StagingRequest where
  commitMessage : String
  fileContent : String
  prTitle : String
  prBody : String
  deriving DecidableEq, Repr

/-- `create_pull_request(new_incidents)`.  Returns `none` when the
`GITHUB_REPOSITORY` / `GITHUB_TOKEN` check fails (the early return before
any API call); otherwise the request it stages, on the happy path where
every GitHub API call succeeds (API failures only truncate the sequence
and are outside every claim).  Note the two bugs this embedding keeps
faithfully: the summary count is `len` of the argument — in `main`'s call
that argument is the collection dictionary, so the count is 2 — and the
uploaded `fileContent` is re-read from the on-disk `data/incidents.json`
(`diskContent`), which `main` never rewrites. -/
def create_pull_request (new_incidents : PyVal) (repo token : Option String)
    (diskContent : String) : Option StagingRequest :=
  if truthy repo && truthy token then
    let n := new_incidents.pyLen
    some { commitMessage := s!"Add {n} new incidents"
           fileContent := diskContent
           prTitle := s!"Add {n} new incidents"
           prBody := "Automatically detected new incidents from news sources." }
  else
    none

/-- An invocation of `create_pull_request`: the argument `main` passed,
and the request it produced (`none` when the credential check failed and
nothing was sent). -/
structure StagingCall where
  arg : PyVal
  request : Option StagingRequest
  deriving DecidableEq, Repr

/-- The per-entry outcome of the external collaborators, for one feed
entry that matched the keyword filter: the article was unextractable
(`noArticle`), `parse_with_llm` raised (a model-call error, caught by
`main`'s per-entry handler), it returned `None`, or it produced a
candidate incident whose eventual comparison response is `oracle`. -/
inductive EntryOutcome where
  | noArticle
  | parseRaised (msg : String)
  | noIncident
  | candidate (inc : Incident) (oracle : Except String String)
  deriving Repr

/-- One iteration of `main`'s entry loop, acting on the current state of
`current_data['incidents']` and the `new_incidents` batch.  An exception
from `is_duplicate` (the `.error` case) is caught by the
`except Exception` handler at the entry level: it is logged and the loop
continues, so the candidate is neither appended nor merged. -/
def processEntry (existing batch : List Incident) :
    EntryOutcome → List Incident × List Incident
  | .noArticle => (existing, batch)
  | .parseRaised _ => (existing, batch)
  | .noIncident => (existing, batch)
  | .candidate inc oracle =>
    match is_duplicate inc existing oracle with
    | .error _ => (existing, batch)
    | .ok (dup, existing2, _) =>
      if dup then (existing2, batch) else (existing2, batch ++ [inc])

/-- `main`'s loop over all matched entries of all feeds, in order. -/
def processEntries (existing batch : List Incident) :
    List EntryOutcome → List Incident × List Incident
  | [] => (existing, batch)
  | o :: os =>
    let p := processEntry existing batch o
    processEntries p.1 p.2 os

/-- The tail of `main` after the credential precheck: run the entry loop,
then — only when the batch is non-empty — extend `current_data['incidents']`,
stamp `lastUpdated` with the current UTC instant (`now`), and invoke
`create_pull_request(current_data)`.  With an empty batch nothing further
happens.  `disk` is the content of `data/incidents.json` on disk, which
this function never writes. -/
def runCore (init : Collection) (entries : List EntryOutcome) (now : String)
    (repo token : Option String) (disk : String) :
    Collection × Option StagingCall :=
  let p := processEntries init.incidents [] entries
  if p.2.isEmpty then
    ({ init with incidents := p.1 }, none)
  else
    let mutated : Collection := { incidents := p.1 ++ p.2, lastUpdated := now }
    (mutated,
     some { arg := PyVal.dictCollection mutated
            request := create_pull_request (PyVal.dictCollection mutated) repo token disk })

/-- What one execution of `main` did: the fatal-precondition message if it
returned during the `OPENAI_API_KEY` checks, whether the feed loop (with
its network fetches) was entered, the final in-memory collection, and the
staging invocation if any. -/
structure RunOutcome where
  fatalError : Option String
  feedsTouched : Bool
  final : Collection
  staging : Option StagingCall
  deriving Repr

/-- `main()`.  Only `OPENAI_API_KEY` is checked up front (unset/empty,
then the `sk-` format check); `GITHUB_REPOSITORY` and `GITHUB_TOKEN` are
first consulted inside `create_pull_request`, after every feed has been
processed.  The feed loop always runs once the key checks pass — `SOURCES`
is a non-empty static list and each iteration begins with a network
fetch. -/
def main_run (api_key repo token : Option String) (init : Collection)
    (entries : List EntryOutcome) (now disk : String) : RunOutcome :=
  match api_key with
  | none =>
    { fatalError := some "Error: OPENAI_API_KEY environment variable not set"
      feedsTouched := false, final := init, staging := none }
  | some k =>
    if k == "" then
      { fatalError := some "Error: OPENAI_API_KEY environment variable not set"
        feedsTouched := false, final := init, staging := none }
    else if !(pyStartswith k "sk-") then
      { fatalError := some "Error: Invalid OpenAI API key format"
        feedsTouched := false, final := init, staging := none }
    else
      let r := runCore init entries now repo token disk
      { fatalError := none, feedsTouched := true, final := r.1, staging := r.2 }

/-- `e1` is `e0` with the same scalar fields and a source list that only
grew at the end — the effect merging can have on a stored incident. -/
def sourcesExtend (e0 e1 : Incident) : Prop :=
  e1.date = e0.date ∧ e1.location = e0.location ∧ e1.description = e0.description ∧
  e1.type = e0.type ∧ e1.status = e0.status ∧ ∃ t, e1.sources = e0.sources ++ t

/-- Pointwise `sourcesExtend` between two incident lists of equal length. -/
def extendsList : List Incident → List Incident → Prop
  | [], [] => True
  | e :: es, f :: fs => sourcesExtend e f ∧ extendsList es fs
  | _, _ => False

/-- The guarantee §4.2 provides on every candidate entering the pipeline:
its `sources` list is non-empty. -/
def candidateHasSource : EntryOutcome → Prop
  | .candidate inc _ => inc.sources ≠ []
  | _ => True

/-- `sourcesExtend` is reflexive. -/
theorem sourcesExtend_refl (e : Incident) : sourcesExtend e e :=
  ⟨rfl, rfl, rfl, rfl, rfl, [], by simp⟩

/-- `sourcesExtend` is transitive. -/
theorem sourcesExtend_trans {a b c : Incident}
    (hab : sourcesExtend a b) (hbc : sourcesExtend b c) : sourcesExtend a c := by
  obtain ⟨d1, l1, s1, t1, u1, w1, hw1⟩ := hab
  obtain ⟨d2, l2, s2, t2, u2, w2, hw2⟩ := hbc
  exact ⟨d2.trans d1, l2.trans l1, s2.trans s1, t2.trans t1, u2.trans u1,
    w1 ++ w2, by rw [hw2, hw1, List.append_assoc]⟩

/-- `extendsList` is reflexive. -/
theorem extendsList_refl : ∀ l : List Incident, extendsList l l
  | [] => trivial
  | _ :: es => ⟨sourcesExtend_refl _, extendsList_refl es⟩

/-- `extendsList` is transitive. -/
theorem extendsList_trans {a b c : List Incident}
    (hab : extendsList a b) (hbc : extendsList b c) : extendsList a c := by
  induction a generalizing b c with
  | nil =>
    cases b with
    | nil =>
      cases c with
      | nil => trivial
      | cons g gs => exact False.elim hbc
    | cons f fs => exact False.elim hab
  | cons e es ih =>
    cases b with
    | nil => exact False.elim hab
    | cons f fs =>
      cases c with
      | nil => exact False.elim hbc
      | cons g gs => exact ⟨sourcesExtend_trans hab.1 hbc.1, ih hab.2 hbc.2⟩

/-- Mapping a per-incident transformation that only extends sources over a
list yields an `extendsList`-related list. -/
theorem extendsList_map (f : Incident → Incident)
    (hf : ∀ e, sourcesExtend e (f e)) : ∀ l : List Incident, extendsList l (l.map f)
  | [] => trivial
  | _ :: es => ⟨hf _, extendsList_map f hf es⟩

/-- Merging a candidate's sources into a stored incident only appends to
its source list and changes nothing else. -/
theorem mergeSources_extends (e c : Incident) : sourcesExtend e (mergeSources e c) :=
  ⟨rfl, rfl, rfl, rfl, rfl, _, rfl⟩

/-- Whatever `is_duplicate` returns without raising, the stored incidents
only had sources appended (or were left alone). -/
theorem is_duplicate_ok_extends {n : Incident} {ex : List Incident}
    {oracle : Except String String} {b : Bool} {ex2 : List Incident} {k : Nat}
    (h : is_duplicate n ex oracle = .ok (b, ex2, k)) : extendsList ex ex2 := by
  simp only [is_duplicate] at h
  by_cases h1 : (ex.any fun existing => sharesSourceUrl existing n) = true
  · rw [if_pos h1] at h
    obtain ⟨-, h2, -⟩ := by simpa using h
    exact h2 ▸ extendsList_refl ex
  · rw [if_neg h1] at h
    by_cases h2 : (ex.filter fun inc => inc.date == n.date).isEmpty = true
    · rw [if_pos h2] at h
      obtain ⟨-, h3, -⟩ := by simpa using h
      exact h3 ▸ extendsList_refl ex
    · rw [if_neg h2] at h
      cases oracle with
      | error e => exact absurd h (by simp)
      | ok r =>
        dsimp only at h
        by_cases h3 : (pyLower (pyStrip r) == "true") = true
        · rw [if_pos h3] at h
          obtain ⟨-, h4, -⟩ := by simpa using h
          refine h4 ▸ extendsList_map _ (fun e => ?_) ex
          split
          · exact mergeSources_extends e n
          · exact sourcesExtend_refl e
        · rw [if_neg h3] at h
          obtain ⟨-, h4, -⟩ := by simpa using h
          exact h4 ▸ extendsList_refl ex

/-- One entry-loop iteration only extends the stored incidents' sources. -/
theorem processEntry_fst_extends (ex b : List Incident) (o : EntryOutcome) :
    extendsList ex (processEntry ex b o).1 := by
  cases o with
  | noArticle => exact extendsList_refl ex
  | parseRaised m => exact extendsList_refl ex
  | noIncident => exact extendsList_refl ex
  | candidate inc oracle =>
    cases hd : is_duplicate inc ex oracle with
    | error e => simp only [processEntry, hd]; exact extendsList_refl ex
    | ok v =>
      obtain ⟨dup, ex2, k⟩ := v
      cases dup <;> simp only [processEntry, hd] <;>
        exact is_duplicate_ok_extends hd

/-- The whole entry loop only extends the stored incidents' sources. -/
theorem processEntries_fst_extends :
    ∀ (os : List EntryOutcome) (ex b : List Incident),
      extendsList ex (processEntries ex b os).1
  | [], ex, _ => extendsList_refl ex
  | o :: os, ex, b =>
    extendsList_trans (processEntry_fst_extends ex b o)
      (processEntries_fst_extends os (processEntry ex b o).1 (processEntry ex b o).2)

/-- One entry-loop iteration preserves "every batched incident has a
source", given the candidate (if any) has one. -/
theorem processEntry_batch_sources {ex b : List Incident} {o : EntryOutcome}
    (ho : candidateHasSource o) (hb : ∀ x ∈ b, x.sources ≠ []) :
    ∀ x ∈ (processEntry ex b o).2, x.sources ≠ [] := by
  cases o with
  | noArticle => exact hb
  | parseRaised m => exact hb
  | noIncident => exact hb
  | candidate inc oracle =>
    cases hd : is_duplicate inc ex oracle with
    | error e => simpa only [processEntry, hd] using hb
    | ok v =>
      obtain ⟨dup, ex2, k⟩ := v
      cases dup with
      | true => simpa only [processEntry, hd] using hb
      | false =>
        simp only [processEntry, hd]
        intro x hx
        rcases List.mem_append.mp hx with hx' | hx'
        · exact hb x hx'
        · simpa using (List.mem_singleton.mp hx') ▸ ho

/-- The whole entry loop preserves "every batched incident has a source". -/
theorem processEntries_batch_sources :
    ∀ (os : List EntryOutcome) (ex b : List Incident),
      (∀ o ∈ os, candidateHasSource o) → (∀ x ∈ b, x.sources ≠ []) →
      ∀ x ∈ (processEntries ex b os).2, x.sources ≠ []
  | [], _, _, _, hb => hb
  | o :: os, ex, b, ho, hb =>
    processEntries_batch_sources os (processEntry ex b o).1 (processEntry ex b o).2
      (fun o' h' => ho o' (List.mem_cons_of_mem o h'))
      (processEntry_batch_sources (ho o (List.mem_cons_self o os)) hb)

/-- The final in-memory collection of a run is the (possibly merged-into)
stored incidents followed by the batch of appended new incidents. -/
theorem runCore_incidents_eq (init : Collection) (entries : List EntryOutcome)
    (now : String) (repo token : Option String) (disk : String) :
    (runCore init entries now repo token disk).1.incidents
      = (processEntries init.incidents [] entries).1
        ++ (processEntries init.incidents [] entries).2 := by
  simp only [runCore]
  by_cases hemp : (processEntries init.incidents [] entries).2.isEmpty = true
  · rw [if_pos hemp]
    simp only []
    rw [List.isEmpty_iff.mp hemp, List.append_nil]
  · rw [if_neg hemp]

/-- Rewriting a present key leaves it present, holding the new value. -/
theorem getField_setFieldList {fields : List (String × Json)} {key : String}
    {v : Json} (w : Json) (h : getField fields key = some v) :
    getField (setFieldList fields key w) key = some w := by
  induction fields with
  | nil => exact absurd h (by simp [getField])
  | cons p rest ih =>
    obtain ⟨k, v'⟩ := p
    by_cases hk : (k == key) = true
    · simp [getField, setFieldList, hk]
    · simp only [getField, setFieldList, hk] at h ⊢
      simp only [Bool.false_eq_true, if_false] at h ⊢
      exact ih h

/-- C5: a candidate sharing at least one source URL with some existing
incident makes `is_duplicate` return true immediately — no comparison
call is issued (the result is the same for every oracle) and the existing
collection is returned entirely unchanged. -/
theorem c5_exact_source_match (new_incident : Incident) (existing : List Incident)
    (oracle : Except String String)
    (h : (existing.any fun e => sharesSourceUrl e new_incident) = true) :
    is_duplicate new_incident existing oracle = .ok (true, existing, 0) := by
  simp only [is_duplicate]
  rw [if_pos h]

/-- Witness for C5: a candidate repeating the URL `https://a/1` of a
stored incident is flagged duplicate with the collection unchanged. -/
theorem c5_exact_source_match_witness :
    is_duplicate
      ⟨"2024-01-05", "Hauptbahnhof area", "d3", "physical_attack", "unverified",
        [⟨"https://a/1", "X"⟩]⟩
      [⟨"2024-01-05", "Hauptbahnhof", "d1", "physical_attack", "verified",
        [⟨"https://a/1", "A"⟩]⟩]
      (.ok "irrelevant")
    = .ok (true,
        [⟨"2024-01-05", "Hauptbahnhof", "d1", "physical_attack", "verified",
          [⟨"https://a/1", "A"⟩]⟩], 0) :=
  c5_exact_source_match _ _ _ (by decide)

/-- C9: with no shared source URL and no existing incident on the
candidate's date, `is_duplicate` returns false with zero comparison
calls — the result does not depend on the oracle at all. -/
theorem c9_no_same_date_no_calls (new_incident : Incident) (existing : List Incident)
    (oracle : Except String String)
    (h1 : (existing.any fun e => sharesSourceUrl e new_incident) = false)
    (h2 : (existing.filter fun inc => inc.date == new_incident.date).isEmpty = true) :
    is_duplicate new_incident existing oracle = .ok (false, existing, 0) := by
  simp only [is_duplicate]
  rw [if_neg (by simp [h1]), if_pos h2]

/-- Witness for C9: a candidate dated 2024-01-06 against a collection
whose only incident is dated 2024-01-05 is reported new with zero calls,
even when the oracle would raise. -/
theorem c9_no_same_date_no_calls_witness :
    is_duplicate
      ⟨"2024-01-06", "Neustadt", "d4", "other", "unverified", [⟨"https://a/9", "A"⟩]⟩
      [⟨"2024-01-05", "Hauptbahnhof", "d1", "physical_attack", "verified",
        [⟨"https://a/1", "A"⟩]⟩]
      (.error "network down")
    = .ok (false,
        [⟨"2024-01-05", "Hauptbahnhof", "d1", "physical_attack", "verified",
          [⟨"https://a/1", "A"⟩]⟩], 0) :=
  c9_no_same_date_no_calls _ _ _ (by decide) (by decide)

/-- C6 counterexample: the claim says any response other than the exact
literal token — variants included — yields `is_duplicate = false`.  But
the code normalizes the response with `.strip().lower()`, so the variant
`" True "` (not the literal `"true"` token) produces a duplicate verdict
and a source merge. -/
theorem c6_variant_true_counterexample :
    is_duplicate
      ⟨"2024-01-05", "Hauptbahnhof area", "d3", "physical_attack", "unverified",
        [⟨"https://a/2", "A"⟩]⟩
      [⟨"2024-01-05", "Hauptbahnhof", "d1", "physical_attack", "verified",
        [⟨"https://a/1", "A"⟩]⟩]
      (.ok " True ")
    = .ok (true,
        [⟨"2024-01-05", "Hauptbahnhof", "d1", "physical_attack", "verified",
          [⟨"https://a/1", "A"⟩, ⟨"https://a/2", "A"⟩]⟩], 1)
    ∧ " True " ≠ "true" ∧ " True " ≠ "false" :=
  ⟨rfl, by decide, by decide⟩

/-- C6 amended: for every comparison response whose stripped, lowercased
form differs from `"true"` (this covers `"false"`, unparseable text, and
case/whitespace variants of `"false"`), a candidate with no exact source
match gets `is_duplicate = false` and the collection is unchanged — no
merge is performed.  The comparison call count is 1 when a same-date
incident exists and 0 otherwise. -/
theorem c6_amended_non_true_fails_open (new_incident : Incident)
    (existing : List Incident) (r : String)
    (h1 : (existing.any fun e => sharesSourceUrl e new_incident) = false)
    (h2 : (pyLower (pyStrip r) == "true") = false) :
    is_duplicate new_incident existing (.ok r)
      = .ok (false, existing,
          if (existing.filter fun inc => inc.date == new_incident.date).isEmpty
          then 0 else 1) := by
  simp only [is_duplicate]
  rw [if_neg (by simp [h1])]
  by_cases hc : (existing.filter fun inc => inc.date == new_incident.date).isEmpty = true
  · rw [if_pos hc, if_pos hc]
  · rw [if_neg hc, if_neg hc]
    rw [if_neg (by simp [h2])]

/-- Witness for C6's amended statement: the response `"same event"` is
not the token `"true"` after normalization, so the candidate is reported
new and the stored incident keeps exactly its original sources. -/
theorem c6_amended_non_true_fails_open_witness :
    is_duplicate
      ⟨"2024-01-05", "Hauptbahnhof area", "d3", "physical_attack", "unverified",
        [⟨"https://a/2", "A"⟩]⟩
      [⟨"2024-01-05", "Hauptbahnhof", "d1", "physical_attack", "verified",
        [⟨"https://a/1", "A"⟩]⟩]
      (.ok "same event")
    = .ok (false,
        [⟨"2024-01-05", "Hauptbahnhof", "d1", "physical_attack", "verified",
          [⟨"https://a/1", "A"⟩]⟩],
        if (([⟨"2024-01-05", "Hauptbahnhof", "d1", "physical_attack", "verified",
          [⟨"https://a/1", "A"⟩]⟩] : List Incident).filter
            fun inc => inc.date == "2024-01-05").isEmpty
        then 0 else 1) :=
  c6_amended_non_true_fails_open _ _ _ (by decide) (by decide)

/-- C7: whenever `parse_with_llm` returns an incident, that incident's
`sources` list is the model's list with the `(url, source_name)`
provenance pair appended at the end — in particular it is non-empty, so
no zero-source candidate is ever handed to the deduplication step. -/
theorem c7_provenance_appended (decoded : Except String Json)
    (raw url source_name : String) (j : Json)
    (h : parse_with_llm decoded raw url source_name = some j) :
    ∃ xs, j.lookup "sources" = some (Json.arr (xs ++ [provenanceSource url source_name]))
      ∧ xs ++ [provenanceSource url source_name] ≠ [] := by
  simp only [parse_with_llm] at h
  by_cases hnull : (pyLower (pyStrip raw) == "null") = true
  · rw [if_pos hnull] at h
    exact absurd h (by simp)
  · rw [if_neg hnull] at h
    cases decoded with
    | error e => exact absurd h (by simp)
    | ok incident =>
      dsimp only at h
      cases hl : incident.lookup "sources" with
      | none => rw [hl] at h; exact absurd h (by simp)
      | some v =>
        rw [hl] at h
        cases v with
        | arr xs =>
          refine ⟨xs, ?_, by simp⟩
          obtain rfl : Json.setField incident "sources"
              (Json.arr (xs ++ [provenanceSource url source_name])) = j := by
            simpa using h
          cases incident with
          | obj fields =>
            simpa [Json.setField, Json.lookup] using
              getField_setFieldList _ (by simpa [Json.lookup] using hl)
          | null => exact absurd hl (by simp [Json.lookup])
          | bool b => exact absurd hl (by simp [Json.lookup])
          | num n => exact absurd hl (by simp [Json.lookup])
          | str s => exact absurd hl (by simp [Json.lookup])
          | arr es => exact absurd hl (by simp [Json.lookup])
        | null => exact absurd h (by simp)
        | bool b => exact absurd h (by simp)
        | num n => exact absurd h (by simp)
        | str s => exact absurd h (by simp)
        | obj fields => exact absurd h (by simp)

/-- Witness for C7: a model response carrying one source gets the
provenance pair appended after it. -/
theorem c7_provenance_appended_witness :
    ∃ xs,
      (Json.obj [("date", Json.str "2024-01-05"),
        ("sources", Json.arr [Json.obj [("url", Json.str "https://b/7"),
            ("name", Json.str "taz")],
          provenanceSource "https://a/1" "MDR Sachsen-Anhalt"])]).lookup "sources"
        = some (Json.arr (xs ++ [provenanceSource "https://a/1" "MDR Sachsen-Anhalt"]))
      ∧ xs ++ [provenanceSource "https://a/1" "MDR Sachsen-Anhalt"] ≠ [] :=
  c7_provenance_appended
    (.ok (Json.obj [("date", Json.str "2024-01-05"),
      ("sources", Json.arr [Json.obj [("url", Json.str "https://b/7"),
        ("name", Json.str "taz")]])]))
    "response body" "https://a/1" "MDR Sachsen-Anhalt" _ rfl

/-- C8 counterexample: the claim says JSON violating the incident schema
(a missing required field) yields `None`.  But the only field access in
the `try` block is `incident['sources']`: a JSON object with a `sources`
list and no `date` field (nor any other required field) is returned as an
incident, not rejected. -/
theorem c8_missing_field_counterexample :
    parse_with_llm (.ok (Json.obj [("sources", Json.arr [])]))
      "\x7b\"sources\": []\x7d" "https://a/1" "MDR Sachsen-Anhalt"
    = some (Json.obj [("sources",
        Json.arr [Json.obj [("url", Json.str "https://a/1"),
          ("name", Json.str "MDR Sachsen-Anhalt")]])])
    ∧ (Json.obj [("sources", Json.arr [])]).lookup "date" = none :=
  ⟨rfl, rfl⟩

/-- C8 amended: `parse_with_llm` returns `None` exactly for the responses
`extractionRejected` describes — the `"null"` sentinel, invalid JSON, and
JSON without an appendable `sources` list; it never raises to its caller
(every exception in the `try` block is absorbed by the bare `except`).
JSON merely missing other required fields is returned, not rejected. -/
theorem c8_amended_rejection_iff (decoded : Except String Json)
    (raw url source_name : String) :
    parse_with_llm decoded raw url source_name = none
      ↔ extractionRejected decoded raw = true := by
  simp only [parse_with_llm, extractionRejected, sourcesAppendable]
  by_cases hnull : (pyLower (pyStrip raw) == "null") = true
  · simp [hnull]
  · rw [if_neg hnull]
    simp only [Bool.or_eq_true, hnull, false_or]
    cases decoded with
    | error e => simp
    | ok j =>
      dsimp only
      cases hl : j.lookup "sources" with
      | none => simp
      | some v => cases v <;> simp

/-- C1 (code bug, evaluated at the failing input): a run that finds one
new incident appends it and stamps `lastUpdated`, but the staging call it
triggers carries the commit message and PR title `"Add 2 new incidents"`
— `len` of the two-key collection dictionary `main` passes instead of the
batch — and uploads the pre-run on-disk file contents unchanged, not the
mutated collection, which is never serialized. -/
theorem c1_staging_payload_bug :
    runCore ⟨[], "T0"⟩
      [.candidate ⟨"2024-01-06", "Halberstädter Straße", "desc", "other",
        "unverified", [⟨"https://a/2", "A"⟩]⟩ (.ok "irrelevant")]
      "2024-01-07T00:00:00Z" (some "owner/repo") (some "ghp-token")
      "OLD-DISK-JSON"
    = (⟨[⟨"2024-01-06", "Halberstädter Straße", "desc", "other", "unverified",
          [⟨"https://a/2", "A"⟩]⟩], "2024-01-07T00:00:00Z"⟩,
       some ⟨PyVal.dictCollection
          ⟨[⟨"2024-01-06", "Halberstädter Straße", "desc", "other", "unverified",
            [⟨"https://a/2", "A"⟩]⟩], "2024-01-07T00:00:00Z"⟩,
         some ⟨"Add 2 new incidents", "OLD-DISK-JSON", "Add 2 new incidents",
           "Automatically detected new incidents from news sources."⟩⟩) :=
  rfl

/-- C2 counterexample: with two same-date stored incidents and a
candidate judged the "same" event, the merge is applied to every
same-date incident, so after the run two distinct incidents share the
candidate's source URL `https://a/2` — the claimed invariant fails. -/
theorem c2_shared_url_counterexample :
    runCore
      ⟨[⟨"2024-01-05", "Hauptbahnhof", "d1", "physical_attack", "verified",
          [⟨"https://a/1", "A"⟩]⟩,
        ⟨"2024-01-05", "Altstadt", "d2", "verbal_attack", "unverified",
          [⟨"https://b/1", "B"⟩]⟩], "T0"⟩
      [.candidate ⟨"2024-01-05", "Hauptbahnhof area", "d3", "physical_attack",
        "unverified", [⟨"https://a/2", "A"⟩]⟩ (.ok "true")]
      "T1" (some "owner/repo") (some "ghp-token") "DISK"
    = (⟨[⟨"2024-01-05", "Hauptbahnhof", "d1", "physical_attack", "verified",
          [⟨"https://a/1", "A"⟩, ⟨"https://a/2", "A"⟩]⟩,
        ⟨"2024-01-05", "Altstadt", "d2", "verbal_attack", "unverified",
          [⟨"https://b/1", "B"⟩, ⟨"https://a/2", "A"⟩]⟩], "T0"⟩, none)
    ∧ (⟨"2024-01-05", "Hauptbahnhof", "d1", "physical_attack", "verified",
          [⟨"https://a/1", "A"⟩, ⟨"https://a/2", "A"⟩]⟩ : Incident)
        ≠ ⟨"2024-01-05", "Altstadt", "d2", "verbal_attack", "unverified",
          [⟨"https://b/1", "B"⟩, ⟨"https://a/2", "A"⟩]⟩
    ∧ ([⟨"https://a/1", "A"⟩, ⟨"https://a/2", "A"⟩] : List Source).any
        (fun s => s.url == "https://a/2") = true
    ∧ ([⟨"https://b/1", "B"⟩, ⟨"https://a/2", "A"⟩] : List Source).any
        (fun s => s.url == "https://a/2") = true :=
  ⟨rfl, by decide, rfl, rfl⟩

/-- C2 amended: after a run, every incident the run appended carries at
least one source (given, as §4.2 guarantees, that every candidate entered
deduplication with at least one source), and no stored incident lost a
source — each was at most extended by merges; but two distinct incidents
may share a source URL. -/
theorem c2_amended_appended_have_sources (init : Collection)
    (entries : List EntryOutcome) (now : String) (repo token : Option String)
    (disk : String) (h : ∀ o ∈ entries, candidateHasSource o) :
    extendsList init.incidents (processEntries init.incidents [] entries).1
    ∧ (∀ x ∈ (processEntries init.incidents [] entries).2, x.sources ≠ [])
    ∧ (runCore init entries now repo token disk).1.incidents
        = (processEntries init.incidents [] entries).1
          ++ (processEntries init.incidents [] entries).2 :=
  ⟨processEntries_fst_extends entries init.incidents [],
   processEntries_batch_sources entries init.incidents [] h (by simp),
   runCore_incidents_eq init entries now repo token disk⟩

/-- Witness for C2's amended statement, at a run that appends one
single-source candidate to an empty collection. -/
theorem c2_amended_appended_have_sources_witness :
    extendsList (Collection.incidents ⟨[], "T0"⟩)
      (processEntries (Collection.incidents ⟨[], "T0"⟩) []
        [.candidate ⟨"2024-01-06", "Neustadt", "d4", "other", "unverified",
          [⟨"https://a/9", "A"⟩]⟩ (.ok "x")]).1
    ∧ (∀ x ∈ (processEntries (Collection.incidents ⟨[], "T0"⟩) []
        [.candidate ⟨"2024-01-06", "Neustadt", "d4", "other", "unverified",
          [⟨"https://a/9", "A"⟩]⟩ (.ok "x")]).2, x.sources ≠ [])
    ∧ (runCore ⟨[], "T0"⟩
        [.candidate ⟨"2024-01-06", "Neustadt", "d4", "other", "unverified",
          [⟨"https://a/9", "A"⟩]⟩ (.ok "x")]
        "T1" (some "r") (some "t") "DISK").1.incidents
        = (processEntries (Collection.incidents ⟨[], "T0"⟩) []
            [.candidate ⟨"2024-01-06", "Neustadt", "d4", "other", "unverified",
              [⟨"https://a/9", "A"⟩]⟩ (.ok "x")]).1
          ++ (processEntries (Collection.incidents ⟨[], "T0"⟩) []
            [.candidate ⟨"2024-01-06", "Neustadt", "d4", "other", "unverified",
              [⟨"https://a/9", "A"⟩]⟩ (.ok "x")]).2 :=
  c2_amended_appended_have_sources ⟨[], "T0"⟩ _ "T1" (some "r") (some "t") "DISK"
    (by intro o ho; simp at ho; subst ho; simp [candidateHasSource])

/-- C3 counterexample: when the comparison call raises (candidate with a
same-date stored incident, oracle erroring), the per-entry handler in
`main` logs and continues: the candidate is dropped — the batch stays
empty and nothing reaches the collection — rather than being accumulated
as a new incident as the claim states. -/
theorem c3_comparison_error_drops_candidate :
    runCore
      ⟨[⟨"2024-01-05", "Hauptbahnhof", "d1", "physical_attack", "verified",
          [⟨"https://a/1", "A"⟩]⟩], "T0"⟩
      [.candidate ⟨"2024-01-05", "Hauptbahnhof area", "d3", "physical_attack",
        "unverified", [⟨"https://a/2", "A"⟩]⟩ (.error "connection reset")]
      "T1" (some "owner/repo") (some "ghp-token") "DISK"
    = (⟨[⟨"2024-01-05", "Hauptbahnhof", "d1", "physical_attack", "verified",
          [⟨"https://a/1", "A"⟩]⟩], "T0"⟩, none)
    ∧ (⟨"2024-01-05", "Hauptbahnhof area", "d3", "physical_attack",
        "unverified", [⟨"https://a/2", "A"⟩]⟩ : Incident)
        ∉ [⟨"2024-01-05", "Hauptbahnhof", "d1", "physical_attack", "verified",
          [⟨"https://a/1", "A"⟩]⟩] :=
  ⟨rfl, by decide⟩

/-- C3 amended: a network/service error in the semantic-comparison call
does not crash the run — the entry-level handler absorbs it, the error is
logged, and the remaining entries are processed — but the candidate is
discarded for this run: it is not accumulated into the batch and the
collection is left unchanged by that entry. -/
theorem c3_amended_comparison_error_skips_entry (inc : Incident)
    (existing batch : List Incident) (e : String) (rest : List EntryOutcome)
    (h1 : (existing.any fun x => sharesSourceUrl x inc) = false)
    (h2 : (existing.filter fun x => x.date == inc.date).isEmpty = false) :
    processEntries existing batch (.candidate inc (.error e) :: rest)
      = processEntries existing batch rest := by
  have hd : is_duplicate inc existing (.error e) = .error e := by
    simp only [is_duplicate]
    rw [if_neg (by simp [h1]), if_neg (by simp [h2])]
  simp only [processEntries, processEntry, hd]

/-- Witness for C3's amended statement: an erroring comparison for a
same-date candidate leaves the rest of the run as if the entry had not
existed. -/
theorem c3_amended_comparison_error_skips_entry_witness :
    processEntries
      [⟨"2024-01-05", "Hauptbahnhof", "d1", "physical_attack", "verified",
        [⟨"https://a/1", "A"⟩]⟩] []
      (.candidate ⟨"2024-01-05", "Hauptbahnhof area", "d3", "physical_attack",
        "unverified", [⟨"https://a/2", "A"⟩]⟩ (.error "connection reset") :: [])
      = processEntries
        [⟨"2024-01-05", "Hauptbahnhof", "d1", "physical_attack", "verified",
          [⟨"https://a/1", "A"⟩]⟩] [] [] :=
  c3_amended_comparison_error_skips_entry _ _ _ _ _ (by decide) (by decide)

/-- C4 counterexample: with a well-formed inference credential but no
repository identifier in the environment, the run does not fail before
the feeds — the whole feed loop executes, an incident is extracted and
batched, and only the staging step aborts (its request is `none`). -/
theorem c4_repo_credential_checked_late :
    main_run (some "sk-test") none (some "ghp-token") ⟨[], "T0"⟩
      [.candidate ⟨"2024-01-06", "Neustadt", "d4", "other", "unverified",
        [⟨"https://a/9", "A"⟩]⟩ (.ok "x")]
      "T1" "DISK"
    = { fatalError := none
        feedsTouched := true
        final := ⟨[⟨"2024-01-06", "Neustadt", "d4", "other", "unverified",
          [⟨"https://a/9", "A"⟩]⟩], "T1"⟩
        staging := some ⟨PyVal.dictCollection
          ⟨[⟨"2024-01-06", "Neustadt", "d4", "other", "unverified",
            [⟨"https://a/9", "A"⟩]⟩], "T1"⟩, none⟩ } :=
  rfl

/-- C4 amended: absence of the inference-service credential aborts the
run before any feed is touched; but absence of the repository-host
credential/identifier does not — the feed loop runs to completion and
only the staging call is cut short, sending nothing. -/
theorem c4_amended_credential_checks :
    (∀ (repo token : Option String) (init : Collection)
        (entries : List EntryOutcome) (now disk : String),
      (main_run none repo token init entries now disk).feedsTouched = false
      ∧ (main_run none repo token init entries now disk).fatalError.isSome = true)
    ∧ (∀ (k : String) (repo token : Option String) (init : Collection)
        (entries : List EntryOutcome) (now disk : String),
      pyStartswith k "sk-" = true →
      (truthy repo && truthy token) = false →
      (main_run (some k) repo token init entries now disk).feedsTouched = true
      ∧ (main_run (some k) repo token init entries now disk).fatalError = none
      ∧ ∀ call, (main_run (some k) repo token init entries now disk).staging
            = some call → call.request = none) := by
  constructor
  · intro repo token init entries now disk
    exact ⟨rfl, rfl⟩
  · intro k repo token init entries now disk hk henv
    have hne : (k == "") = false := by
      cases k with
      | mk l =>
        cases l with
        | nil => exact absurd hk (by decide)
        | cons c cs =>
          rw [beq_eq_false_iff_ne]
          intro hcontra
          exact List.noConfusion (congrArg String.data hcontra)
    have hstep : main_run (some k) repo token init entries now disk
        = { fatalError := none, feedsTouched := true
            final := (runCore init entries now repo token disk).1
            staging := (runCore init entries now repo token disk).2 } := by
      simp only [main_run]
      rw [if_neg (by simp [hne]), if_neg (by simp [hk])]
    refine ⟨by rw [hstep], by rw [hstep], ?_⟩
    intro call hcall
    rw [hstep] at hcall
    simp only [runCore] at hcall
    by_cases hemp : (processEntries init.incidents [] entries).2.isEmpty = true
    · rw [if_pos hemp] at hcall
      exact absurd hcall (by simp)
    · rw [if_neg hemp] at hcall
      simp only [Option.some.injEq] at hcall
      rw [← hcall]
      simp only [create_pull_request]
      rw [if_neg (by simp [henv])]

/-- Witness for C4's amended statement, at a missing-key run and at a
run with the inference key present but the repository token empty. -/
theorem c4_amended_credential_checks_witness :
    ((main_run none (some "owner/repo") (some "ghp-token") ⟨[], "T0"⟩ [] "T1"
        "DISK").feedsTouched = false
      ∧ (main_run none (some "owner/repo") (some "ghp-token") ⟨[], "T0"⟩ [] "T1"
        "DISK").fatalError.isSome = true)
    ∧ ((main_run (some "sk-test") (some "owner/repo") (some "") ⟨[], "T0"⟩ [] "T1"
        "DISK").feedsTouched = true
      ∧ (main_run (some "sk-test") (some "owner/repo") (some "") ⟨[], "T0"⟩ [] "T1"
        "DISK").fatalError = none
      ∧ ∀ call, (main_run (some "sk-test") (some "owner/repo") (some "") ⟨[], "T0"⟩
          [] "T1" "DISK").staging = some call → call.request = none) :=
  ⟨c4_amended_credential_checks.1 (some "owner/repo") (some "ghp-token")
      ⟨[], "T0"⟩ [] "T1" "DISK",
   c4_amended_credential_checks.2 "sk-test" (some "owner/repo") (some "")
      ⟨[], "T0"⟩ [] "T1" "DISK" (by decide) (by decide)⟩

/-- C10 counterexample: a run whose only candidate is merged away as a
semantic duplicate ends with an empty batch and no staging call, yet the
collection HAS been mutated — the stored incident gained the candidate's
source — so "no mutation of the collection" fails. -/
theorem c10_merge_mutates_with_empty_batch :
    runCore
      ⟨[⟨"2024-01-05", "Hauptbahnhof", "d1", "physical_attack", "verified",
          [⟨"https://a/1", "A"⟩]⟩], "T0"⟩
      [.candidate ⟨"2024-01-05", "Hauptbahnhof area", "d3", "physical_attack",
        "unverified", [⟨"https://a/2", "A"⟩]⟩ (.ok "true")]
      "T1" (some "owner/repo") (some "ghp-token") "DISK"
    = (⟨[⟨"2024-01-05", "Hauptbahnhof", "d1", "physical_attack", "verified",
          [⟨"https://a/1", "A"⟩, ⟨"https://a/2", "A"⟩]⟩], "T0"⟩, none)
    ∧ ([⟨"2024-01-05", "Hauptbahnhof", "d1", "physical_attack", "verified",
          [⟨"https://a/1", "A"⟩, ⟨"https://a/2", "A"⟩]⟩] : List Incident)
        ≠ [⟨"2024-01-05", "Hauptbahnhof", "d1", "physical_attack", "verified",
          [⟨"https://a/1", "A"⟩]⟩] :=
  ⟨rfl, by decide⟩

/-- C10 amended: a run whose batch ends empty never invokes the staging
collaborator, appends nothing, and leaves `lastUpdated` unchanged;
stored incidents keep all their fields and sources, except that merges
performed while discarding duplicate candidates may have appended
sources to them. -/
theorem c10_amended_empty_batch (init : Collection) (entries : List EntryOutcome)
    (now : String) (repo token : Option String) (disk : String)
    (hb : (processEntries init.incidents [] entries).2 = []) :
    (runCore init entries now repo token disk).2 = none
    ∧ (runCore init entries now repo token disk).1.lastUpdated = init.lastUpdated
    ∧ extendsList init.incidents (runCore init entries now repo token disk).1.incidents := by
  have hrw : runCore init entries now repo token disk
      = ({ init with incidents := (processEntries init.incidents [] entries).1 }, none) := by
    simp only [runCore]
    rw [if_pos (by simp [hb])]
  refine ⟨by rw [hrw], by rw [hrw], ?_⟩
  rw [hrw]
  exact processEntries_fst_extends entries init.incidents []

/-- Witness for C10's amended statement: a run whose single candidate is
merged away ends with an empty batch, and the conclusion holds at it. -/
theorem c10_amended_empty_batch_witness :
    (runCore
      ⟨[⟨"2024-01-05", "Altstadt", "d2", "verbal_attack", "unverified",
          [⟨"https://b/1", "B"⟩]⟩], "T0"⟩
      [.candidate ⟨"2024-01-05", "Altstadt market", "d5", "verbal_attack",
        "unverified", [⟨"https://b/2", "B"⟩]⟩ (.ok "TRUE")]
      "T1" (some "owner/repo") (some "ghp-token") "DISK").2 = none
    ∧ (runCore
      ⟨[⟨"2024-01-05", "Altstadt", "d2", "verbal_attack", "unverified",
          [⟨"https://b/1", "B"⟩]⟩], "T0"⟩
      [.candidate ⟨"2024-01-05", "Altstadt market", "d5", "verbal_attack",
        "unverified", [⟨"https://b/2", "B"⟩]⟩ (.ok "TRUE")]
      "T1" (some "owner/repo") (some "ghp-token") "DISK").1.lastUpdated
      = Collection.lastUpdated ⟨[⟨"2024-01-05", "Altstadt", "d2", "verbal_attack",
          "unverified", [⟨"https://b/1", "B"⟩]⟩], "T0"⟩
    ∧ extendsList
        (Collection.incidents ⟨[⟨"2024-01-05", "Altstadt", "d2", "verbal_attack",
          "unverified", [⟨"https://b/1", "B"⟩]⟩], "T0"⟩)
        (runCore
          ⟨[⟨"2024-01-05", "Altstadt", "d2", "verbal_attack", "unverified",
              [⟨"https://b/1", "B"⟩]⟩], "T0"⟩
          [.candidate ⟨"2024-01-05", "Altstadt market", "d5", "verbal_attack",
            "unverified", [⟨"https://b/2", "B"⟩]⟩ (.ok "TRUE")]
          "T1" (some "owner/repo") (some "ghp-token") "DISK").1.incidents :=
  c10_amended_empty_batch _ _ "T1" (some "owner/repo") (some "ghp-token") "DISK" rfl

end MonitorNews
